import Mathlib

/-!
Shallow embedding of the core of the perpetual grid trading bot
(grid manager, order book, balance tracker, order manager, order status
tracker, strategy controller), translated from the Python sources under
`src/`.  Machine reals are modelled as `ℚ`; Python dictionaries of grid
levels keyed by price are modelled as total functions `ℚ → GridLevel`
(an arena indexed by the level price, with paired levels stored as
`Option` of the partner price); raised exceptions are modelled with
`Except`.

A semantic point carried over faithfully from `perpetual_order.py`: the
Python enum `PerpetualOrderSide` assigns the value `buy` to both
`BUY_OPEN` and `BUY_CLOSE`, and the value `sell` to both `SELL_CLOSE`
and `SELL_OPEN`.  Python enum members with a duplicated value are
aliases of the first member with that value, so at run time the enum has
exactly two distinct members and `BUY_CLOSE` is the very same member as
`BUY_OPEN` (and `SELL_OPEN` the same as `SELL_CLOSE`).  The embedding
mirrors this with the two-constructor type `SideMember` and definitions
for the four names.
-/

namespace PerpetualBot

/-- `GridCycleState` from `src/core/grid_management/grid_level.py`. -/
inductive GridCycleState where
  | READY_TO_BUY_OR_SELL
  | READY_TO_BUY
  | WAITING_FOR_BUY_FILL
  | READY_TO_SELL
  | WAITING_FOR_SELL_FILL
deriving DecidableEq

/-- The distinct runtime members of the Python enum `PerpetualOrderSide`
(`src/core/order_handling/perpetual_order.py` lines 6-11).  The enum
declares four names but only two distinct values, so only two distinct
members exist. -/
inductive SideMember where
  | buy
  | sell
deriving DecidableEq

namespace PerpetualOrderSide

/-- `PerpetualOrderSide.BUY_OPEN = 'buy'`. -/
def BUY_OPEN : SideMember := .buy

/-- `PerpetualOrderSide.SELL_CLOSE = 'sell'`. -/
def SELL_CLOSE : SideMember := .sell

/-- `PerpetualOrderSide.SELL_OPEN = 'sell'`: a Python enum alias of
`SELL_CLOSE`, because the value `sell` is already taken. -/
def SELL_OPEN : SideMember := .sell

/-- `PerpetualOrderSide.BUY_CLOSE = 'buy'`: a Python enum alias of
`BUY_OPEN`, because the value `buy` is already taken. -/
def BUY_CLOSE : SideMember := .buy

/-- Attribute lookup on the Python class `PerpetualOrderSide`: only the
four declared names resolve; any other attribute access raises
`AttributeError`.  Used to embed code that references members that do
not exist (`OPEN_LONG`, `CLOSE_LONG`, `OPEN_SHORT`, `CLOSE_SHORT`). -/
def getattr_side : String → Option SideMember
  | "BUY_OPEN" => some .buy
  | "SELL_CLOSE" => some .sell
  | "SELL_OPEN" => some .sell
  | "BUY_CLOSE" => some .buy
  | _ => none

end PerpetualOrderSide

/-- `StrategyType` (referenced from `strategies.strategy_type`). -/
inductive StrategyType where
  | SIMPLE_GRID
  | HEDGED_GRID
deriving DecidableEq

/-- `SpacingType` (referenced from `strategies.spacing_type`). -/
inductive SpacingType where
  | ARITHMETIC
  | GEOMETRIC
deriving DecidableEq

/-- `PerpetualOrderStatus` from `src/core/order_handling/perpetual_order.py`. -/
inductive PerpetualOrderStatus where
  | OPEN
  | CLOSED
  | CANCELED
  | EXPIRED
  | REJECTED
  | UNKNOWN
  | LIQUIDATED
  | ADL
  | PARTIAL_CLOSE
deriving DecidableEq

/-- `GridLevel` from `src/core/grid_management/grid_level.py`: price,
cycle state and the two optional paired-level back-references.  Paired
levels are stored as the partner's price (the arena index); the order
history list is not needed by any claim and is omitted. -/
structure GridLevel where
  price : ℚ
  state : GridCycleState
  paired_buy_level : Option ℚ
  paired_sell_level : Option ℚ
deriving DecidableEq

/-- The `grid_levels` dictionary of `PerpetualGridManager`, as an arena
indexed by level price. -/
abbrev GridLevels := ℚ → GridLevel

/-- Pointwise update of the arena at one price (a mutation of the
Python `GridLevel` object stored under that key). -/
def update_level (levels : GridLevels) (p : ℚ) (f : GridLevel → GridLevel) : GridLevels :=
  fun q => if q = p then f (levels q) else levels q

/-- Field assignment `grid_level.state = st`. -/
def set_state (st : GridCycleState) (g : GridLevel) : GridLevel :=
  { g with state := st }

/-- `PerpetualGridManager.pair_grid_levels`
(`src/core/grid_management/perpetual_grid_manager.py` lines 39-70).
With pairing type `buy` it sets `source.paired_buy_level := target` then
`target.paired_sell_level := source`; with `sell` it sets
`source.paired_sell_level := target` then
`target.paired_buy_level := source`; any other string raises
`ValueError` before any assignment. -/
def pair_grid_levels (levels : GridLevels) (source target : ℚ)
    (pairing_type : String) : Except String GridLevels :=
  if pairing_type = "buy" then
    let s1 := update_level levels source (fun g => { g with paired_buy_level := some target })
    let s2 := update_level s1 target (fun g => { g with paired_sell_level := some source })
    .ok s2
  else if pairing_type = "sell" then
    let s1 := update_level levels source (fun g => { g with paired_sell_level := some target })
    let s2 := update_level s1 target (fun g => { g with paired_buy_level := some source })
    .ok s2
  else
    .error ("Invalid pairing type: " ++ pairing_type)

/-- `PerpetualGridManager.can_place_order` (lines 477-507).  The Python
branches compare `order_side` with `BUY_OPEN` first and with `BUY_CLOSE`
second; since those two names denote the same enum member, the second
branch is unreachable, and for a `sell`-valued side the function falls
through and returns `None` (falsy, embedded as `false`). -/
def can_place_order (strategy_type : StrategyType) (grid_level : GridLevel)
    (order_side : SideMember) : Bool :=
  match strategy_type with
  | .SIMPLE_GRID =>
    if order_side == PerpetualOrderSide.BUY_OPEN then
      grid_level.state == .READY_TO_BUY
    else if order_side == PerpetualOrderSide.BUY_CLOSE then
      grid_level.state == .READY_TO_SELL
    else
      false
  | .HEDGED_GRID =>
    if order_side == PerpetualOrderSide.BUY_OPEN then
      grid_level.state == .READY_TO_BUY || grid_level.state == .READY_TO_BUY_OR_SELL
    else if order_side == PerpetualOrderSide.BUY_CLOSE then
      grid_level.state == .READY_TO_SELL || grid_level.state == .READY_TO_BUY_OR_SELL
    else
      false

/-- `PerpetualGridManager.complete_order` (lines 429-469), acting on the
arena at the price of the completed grid level.  In `SIMPLE_GRID` the
`else` branch catches every side other than the `BUY_OPEN` member; in
`HEDGED_GRID` the `elif order_side == BUY_CLOSE` branch is unreachable
(alias of `BUY_OPEN`) and a `sell`-valued side matches no branch and
changes nothing. -/
def complete_order (strategy_type : StrategyType) (levels : GridLevels)
    (grid_level : ℚ) (order_side : SideMember) : GridLevels :=
  match strategy_type with
  | .SIMPLE_GRID =>
    if order_side == PerpetualOrderSide.BUY_OPEN then
      update_level levels grid_level (set_state .READY_TO_SELL)
    else
      update_level levels grid_level (set_state .READY_TO_BUY)
  | .HEDGED_GRID =>
    if order_side == PerpetualOrderSide.BUY_OPEN then
      let s1 := update_level levels grid_level (set_state .READY_TO_SELL)
      match (s1 grid_level).paired_sell_level with
      | some p => update_level s1 p (set_state .READY_TO_SELL)
      | none => s1
    else if order_side == PerpetualOrderSide.BUY_CLOSE then
      let s1 := update_level levels grid_level (set_state .READY_TO_BUY)
      match (s1 grid_level).paired_buy_level with
      | some p => update_level s1 p (set_state .READY_TO_BUY)
      | none => s1
    else
      levels

/-- `PerpetualGridManager.mark_order_pending` (lines 509-532): sets the
level state from the pending order's side (the appended order history is
omitted).  Since `SELL_OPEN` is the `sell` member, any sell order lands
in the `WAITING_FOR_SELL_FILL` branch. -/
def mark_order_pending (levels : GridLevels) (grid_level : ℚ)
    (order_side : SideMember) : GridLevels :=
  if order_side == PerpetualOrderSide.BUY_OPEN then
    update_level levels grid_level (set_state .WAITING_FOR_BUY_FILL)
  else if order_side == PerpetualOrderSide.SELL_OPEN then
    update_level levels grid_level (set_state .WAITING_FOR_SELL_FILL)
  else
    levels

/-- The `SIMPLE_GRID` branch of `PerpetualGridManager.get_paired_sell_level`
(lines 85-103): walk `sorted_sell_grids` in list order, skip a level when
`can_place_order(level, BUY_CLOSE)` is false, and return the first
remaining level whose price is strictly above the buy level's price.
The result is the price of the returned level. -/
def get_paired_sell_level_simple (levels : GridLevels) (sorted_sell_grids : List ℚ)
    (buy_price : ℚ) : Option ℚ :=
  match sorted_sell_grids with
  | [] => none
  | sell_price :: rest =>
    if ¬ can_place_order .SIMPLE_GRID (levels sell_price) PerpetualOrderSide.BUY_CLOSE then
      get_paired_sell_level_simple levels rest buy_price
    else if buy_price < sell_price then
      some sell_price
    else
      get_paired_sell_level_simple levels rest buy_price

/-- `PerpetualGridManager.adjust_grid_spacing` (lines 300-314). -/
def adjust_grid_spacing (leverage base_spacing : ℚ) : ℚ :=
  base_spacing * (1 + (leverage - 1) * (1 / 10))

/-- The `GEOMETRIC` loop of
`PerpetualGridManager._calculate_price_grids_and_central_price`
(lines 417-422): starting from `bottom_range`, append the current price
`num_grids` times, multiplying by `1 + grid_ratio` after each append.
The bottom itself is the first grid. -/
def geometric_price_grids (bottom_range grid_ratio : ℚ) : ℕ → List ℚ
  | 0 => []
  | n + 1 => bottom_range :: geometric_price_grids (bottom_range * (1 + grid_ratio)) grid_ratio n

/-- `PerpetualGridManager._calculate_price_grids_and_central_price`
(lines 400-427): `top_range = reversion_price`,
`bottom_range = reversion_price * (1 - grid_ratio) ^ num_grids`; returns
the grid list and the reversion price (the `central_price` computed in
the arithmetic branch is not returned). -/
def calculate_price_grids_and_central_price (leverage reversion_price grid_ratio : ℚ)
    (num_grids : ℕ) (spacing_type : SpacingType) : List ℚ × ℚ :=
  let top_range := reversion_price
  let bottom_range := reversion_price * (1 - grid_ratio) ^ num_grids
  match spacing_type with
  | .ARITHMETIC =>
    let grid_spacing := (top_range - bottom_range) / ((num_grids : ℚ) - 1)
    let adjusted_spacing := adjust_grid_spacing leverage grid_spacing
    ((List.range num_grids).map (fun i => bottom_range + (i : ℚ) * adjusted_spacing),
      reversion_price)
  | .GEOMETRIC => (geometric_price_grids bottom_range grid_ratio num_grids, reversion_price)

/-- `PerpetualGridManager.get_reversion_price` (lines 474-475) after
`initialize_grids_and_levels` stored the second component returned by
`_calculate_price_grids_and_central_price`. -/
def get_reversion_price (leverage reversion_price grid_ratio : ℚ)
    (num_grids : ℕ) (spacing_type : SpacingType) : ℚ :=
  (calculate_price_grids_and_central_price leverage reversion_price grid_ratio
    num_grids spacing_type).2

/-- `PerpetualGridManager.get_order_size_for_grid_level` (lines 188-214):
`margin_per_grid = total_margin / len(grid_levels)`,
`max_position_size = margin_per_grid * leverage / current_price`, result
`max_position_size * (1 - margin_ratio)` where `margin_ratio` is the
manager's maintenance margin ratio field (`0.01` in `__init__`). -/
def get_order_size_for_grid_level (num_grid_levels : ℕ) (leverage margin_ratio : ℚ)
    (total_margin current_price : ℚ) : ℚ :=
  let margin_per_grid := total_margin / (num_grid_levels : ℚ)
  let max_position_size := margin_per_grid * leverage / current_price
  max_position_size * (1 - margin_ratio)

/-- The buy-side loop of `PerpetualOrderManager.initialize_grid_orders`
(`src/core/order_handling/perpetual_order_manager.py` lines 441-477):
walk `sorted_buy_grids` in list order; skip a price at or above
`current_price`; when `can_place_order(level, BUY_OPEN)` holds, place a
limit `BUY_OPEN` with the hardcoded quantity `1.0` (the source carries a
TODO admitting the correct quantity is not computed), mark the level
pending and continue.  No counter bounds the number of placements.  The
result is the updated arena and the list of `(price, quantity)` of the
placed buy orders, in placement order, assuming every placement
succeeds. -/
def initialize_grid_orders_buys (strategy_type : StrategyType) (levels : GridLevels)
    (sorted_buy_grids : List ℚ) (current_price : ℚ) : GridLevels × List (ℚ × ℚ) :=
  match sorted_buy_grids with
  | [] => (levels, [])
  | price :: rest =>
    if current_price ≤ price then
      initialize_grid_orders_buys strategy_type levels rest current_price
    else if can_place_order strategy_type (levels price) PerpetualOrderSide.BUY_OPEN then
      let adjusted_buy_order_quantity : ℚ := 1
      let levels1 := mark_order_pending levels price PerpetualOrderSide.BUY_OPEN
      let result := initialize_grid_orders_buys strategy_type levels1 rest current_price
      (result.1, (price, adjusted_buy_order_quantity) :: result.2)
    else
      initialize_grid_orders_buys strategy_type levels rest current_price

/-! ### Balance tracker (`src/core/order_handling/perpetual_balance_tracker.py`) -/

/-- The mutable numeric state of `PerpetualBalanceTracker`. -/
structure BalanceState where
  margin_balance : ℚ
  reserved_margin : ℚ
  total_fees : ℚ
  long_position : ℚ
  short_position : ℚ
  long_avg_price : ℚ
  short_avg_price : ℚ
  unrealized_pnl : ℚ
  realized_pnl : ℚ
  funding_fees : ℚ
deriving DecidableEq

/-- A freshly constructed tracker with a given margin balance: every
position, fee and pnl field starts at zero (`__init__` lines 47-58),
and `setup_balances` in backtest mode sets `margin_balance` to the
configured initial margin. -/
def flat_balance (initial_margin : ℚ) : BalanceState :=
  { margin_balance := initial_margin
    reserved_margin := 0
    total_fees := 0
    long_position := 0
    short_position := 0
    long_avg_price := 0
    short_avg_price := 0
    unrealized_pnl := 0
    realized_pnl := 0
    funding_fees := 0 }

/-- Modelled from the spec: `FeeCalculator.calculate_fee` lives in
`core/order_handling/fee_calculator.py`, which is not among the source
files; the balance tracker calls it as
`calculate_fee(order.filled * order.price)`.  Per the spec (section 4.4),
the fill fee is `fee_rate * filled * price`, so the calculator maps a
trade value to `fee_rate * trade_value`. -/
def calculate_fee (fee_rate trade_value : ℚ) : ℚ :=
  fee_rate * trade_value

/-- `PerpetualBalanceTracker._calculate_required_margin` (lines 138-150). -/
def calculate_required_margin (initial_margin_ratio quantity price : ℚ) : ℚ :=
  quantity * price * initial_margin_ratio

/-- `PerpetualBalanceTracker._handle_open_position` (lines 273-290):
average-entry update for the side selected by comparison with the
`BUY_OPEN` member. -/
def handle_open_position (b : BalanceState) (side : SideMember)
    (filled price : ℚ) : BalanceState :=
  if side == PerpetualOrderSide.BUY_OPEN then
    let new_position := b.long_position + filled
    let new_cost := b.long_position * b.long_avg_price + filled * price
    { b with
      long_position := new_position
      long_avg_price := if 0 < new_position then new_cost / new_position else 0 }
  else
    let new_position := b.short_position + filled
    let new_cost := b.short_position * b.short_avg_price + filled * price
    { b with
      short_position := new_position
      short_avg_price := if 0 < new_position then new_cost / new_position else 0 }

/-- `PerpetualBalanceTracker._handle_close_position` (lines 292-314):
realize pnl on the side selected by `position_side`, clamping the closed
quantity to the held position and resetting the average entry when the
position reaches zero; the pnl is added to both `realized_pnl` and
`margin_balance`. -/
def handle_close_position (b : BalanceState) (position_side : SideMember)
    (filled price : ℚ) : BalanceState :=
  let b1 :=
    if position_side == PerpetualOrderSide.BUY_OPEN then
      let close_quantity := min b.long_position filled
      let pnl := close_quantity * (price - b.long_avg_price)
      let b' := { b with long_position := b.long_position - close_quantity }
      ({ b' with long_avg_price := if b'.long_position = 0 then 0 else b'.long_avg_price }, pnl)
    else
      let close_quantity := min b.short_position filled
      let pnl := close_quantity * (b.short_avg_price - price)
      let b' := { b with short_position := b.short_position - close_quantity }
      ({ b' with short_avg_price := if b'.short_position = 0 then 0 else b'.short_avg_price }, pnl)
  { b1.1 with
    realized_pnl := b1.1.realized_pnl + b1.2
    margin_balance := b1.1.margin_balance + b1.2 }

/-- `PerpetualBalanceTracker._update_balance_on_order_completion`
(lines 241-271) on an `ORDER_FILLED` event, for an order with the given
side member, filled quantity and price: charge the fee into
`total_fees`, branch on the side's value and the held positions (a
`buy`-valued fill closes short when `short_position > 0`, else opens
long; a `sell`-valued fill closes long when `long_position > 0`, else
opens short), release the per-fill initial-margin estimate from
`reserved_margin` clamped at zero, and subtract the fee from
`margin_balance`. -/
def update_balance_on_order_completion (fee_rate initial_margin_ratio : ℚ)
    (b : BalanceState) (side : SideMember) (filled price : ℚ) : BalanceState :=
  let fee := calculate_fee fee_rate (filled * price)
  let b1 := { b with total_fees := b.total_fees + fee }
  let required_margin := calculate_required_margin initial_margin_ratio filled price
  let b2 :=
    if side == PerpetualOrderSide.BUY_OPEN then
      if 0 < b1.short_position then
        handle_close_position b1 PerpetualOrderSide.SELL_OPEN filled price
      else
        handle_open_position b1 PerpetualOrderSide.BUY_OPEN filled price
    else
      if 0 < b1.long_position then
        handle_close_position b1 PerpetualOrderSide.BUY_OPEN filled price
      else
        handle_open_position b1 PerpetualOrderSide.SELL_OPEN filled price
  let b3 := { b2 with reserved_margin := b2.reserved_margin - required_margin }
  let b4 := if b3.reserved_margin < 0 then { b3 with reserved_margin := 0 } else b3
  { b4 with margin_balance := b4.margin_balance - fee }

/-! ### Strategy controller (`src/strategies/perpetual_grid_trading_strategy.py`) -/

/-- `PerpetualGridTradingStrategy._initialize_grid_orders_once`
(lines 365-394).  Returns the new `grid_orders_initialized` flag and
whether the seeding pair `perform_initial_purchase` /
`initialize_grid_orders` was invoked on this call.  When no previous
price has been recorded (`last_price is None`) the function returns
`False` without seeding, waiting for the next price update. -/
def initialize_grid_orders_once (current_price reversion_price : ℚ)
    (grid_orders_initialized : Bool) (last_price : Option ℚ) : Bool × Bool :=
  if grid_orders_initialized then
    (true, false)
  else
    match last_price with
    | none => (false, false)
    | some _ =>
      if current_price < reversion_price then (true, true) else (false, false)

/-- State threaded through the ticker callback of
`_run_live_or_paper_trading` (lines 280-326): the recorded `last_price`,
the seeded flag, and a count of how many times the seeding pair ran. -/
structure TickLoopState where
  last_price : Option ℚ
  grid_orders_initialized : Bool
  seed_count : ℕ
deriving DecidableEq

/-- One invocation of `on_ticker_update` (lines 286-313) with `_running`
true: call `_initialize_grid_orders_once`, then record
`last_price := current_price` (the take-profit / stop-loss evaluation
`_evaluate_tp_or_sl` returns `False` unconditionally in the source, so
it never interrupts the update). -/
def on_ticker_update (reversion_price : ℚ) (st : TickLoopState)
    (current_price : ℚ) : TickLoopState :=
  let r := initialize_grid_orders_once current_price reversion_price
    st.grid_orders_initialized st.last_price
  { last_price := some current_price
    grid_orders_initialized := r.1
    seed_count := st.seed_count + (if r.2 then 1 else 0) }

/-- The ticker loop: deliver a sequence of prices to `on_ticker_update`,
starting from the initial state of `_run_live_or_paper_trading`
(`last_price = None`, not seeded). -/
def run_ticks (reversion_price : ℚ) (prices : List ℚ) : TickLoopState :=
  prices.foldl (on_ticker_update reversion_price)
    { last_price := none, grid_orders_initialized := false, seed_count := 0 }

/-! ### Order status tracker (`src/core/order_handling/perpetual_order_status_tracker.py`) -/

/-- The fields of a remote order relevant to
`_handle_order_status_change`. -/
structure RemoteOrder where
  identifier : String
  status : PerpetualOrderStatus
  filled : ℚ
  remaining : ℚ
deriving DecidableEq

/-- Events the status tracker can publish from the status-change
handler. -/
inductive TrackerEvent where
  | ORDER_FILLED
  | ORDER_CANCELLED
  | POSITION_UPDATE
  | ADL_TRIGGERED
deriving DecidableEq

/-- The body of
`PerpetualOrderStatusTracker._handle_order_status_change`
(lines 113-149) inside its `try`: dispatch on the remote status,
producing the `update_order_status` calls issued to the order book and
the events published, or the `ValueError` raised for `UNKNOWN` (raised
before any other branch runs).  `OPEN` (with or without partial fill)
and the unhandled statuses (`EXPIRED`, `REJECTED`) only log. -/
def handle_order_status_change_body (o : RemoteOrder) :
    Except String (List (String × PerpetualOrderStatus) × List TrackerEvent) :=
  if o.status == .UNKNOWN then
    .error "Order data missing status field"
  else if o.status == .LIQUIDATED then
    .ok ([(o.identifier, .LIQUIDATED)], [.POSITION_UPDATE])
  else if o.status == .ADL then
    .ok ([(o.identifier, .ADL)], [.ADL_TRIGGERED])
  else if o.status == .PARTIAL_CLOSE then
    .ok ([(o.identifier, .PARTIAL_CLOSE)], [.POSITION_UPDATE])
  else if o.status == .CLOSED then
    .ok ([(o.identifier, .CLOSED)], [.ORDER_FILLED])
  else if o.status == .CANCELED then
    .ok ([(o.identifier, .CANCELED)], [.ORDER_CANCELLED])
  else
    .ok ([], [])

/-- `_handle_order_status_change` with its outer `except Exception`
handler, which swallows the `ValueError` raised for `UNKNOWN` after
logging: the observable effect of the handler is the pair (order-book
status updates issued, events published). -/
def handle_order_status_change (o : RemoteOrder) :
    List (String × PerpetualOrderStatus) × List TrackerEvent :=
  match handle_order_status_change_body o with
  | .ok r => r
  | .error _ => ([], [])

/-! ### Order book (`src/core/order_handling/perpetual_order_book.py`) -/

/-- The order fields relevant to the order-book bucket queries. -/
structure POrder where
  identifier : String
  side : SideMember
  status : PerpetualOrderStatus
deriving DecidableEq

/-- `PerpetualOrderBook`: the four side-and-intent buckets, the
conditional bucket and the order-to-grid map (keyed by order
identifier). -/
structure PerpetualOrderBook where
  long_orders_open : List POrder
  long_orders_close : List POrder
  short_orders_open : List POrder
  short_orders_close : List POrder
  conditional_orders : List POrder
  order_to_grid_map : String → Option ℚ

/-- `PerpetualOrderBook.get_orders_by_side` (lines 60-75).  The Python
body compares `side` against `PerpetualOrderSide.OPEN_LONG`,
`PerpetualOrderSide.CLOSE_LONG` and `PerpetualOrderSide.OPEN_SHORT` in
turn; each comparison first evaluates the attribute on the enum class,
and `OPEN_LONG` is not a declared member, so the very first comparison
raises `AttributeError` whatever `side` is. -/
def get_orders_by_side (book : PerpetualOrderBook) (side : SideMember) :
    Except String (List POrder) := do
  match PerpetualOrderSide.getattr_side "OPEN_LONG" with
  | none => .error "AttributeError: OPEN_LONG"
  | some m =>
    if side == m then
      return book.long_orders_open
    else
      match PerpetualOrderSide.getattr_side "CLOSE_LONG" with
      | none => .error "AttributeError: CLOSE_LONG"
      | some m2 =>
        if side == m2 then
          return book.long_orders_close
        else
          match PerpetualOrderSide.getattr_side "OPEN_SHORT" with
          | none => .error "AttributeError: OPEN_SHORT"
          | some m3 =>
            if side == m3 then
              return book.short_orders_open
            else
              return book.short_orders_close

/-- `PerpetualOrderBook.get_orders_with_grid` (lines 81-90): fetch the
bucket through `get_orders_by_side` (so any `AttributeError` raised
there propagates) and join each order with its grid level. -/
def get_orders_with_grid (book : PerpetualOrderBook) (side : SideMember) :
    Except String (List (POrder × Option ℚ)) := do
  let orders ← get_orders_by_side book side
  return orders.map (fun o => (o, book.order_to_grid_map o.identifier))

/-! ### Concrete fixtures used by witnesses and counterexamples -/

/-- A one-level arena: the level at price 70 is `READY_TO_BUY` with no
pairings, as a buy level of a `SIMPLE_GRID` lattice. -/
def arena_buy70 : GridLevels :=
  fun _ => { price := 70, state := .READY_TO_BUY, paired_buy_level := none,
             paired_sell_level := none }

/-- The S2/S3 `SIMPLE_GRID` fixture with levels `{50, 70, 90, 110, 130}`
and reversion price 100: buy levels `50, 70, 90` are `READY_TO_BUY` and
sell levels `110, 130` are `READY_TO_SELL` (the state named for level
110 in the claim). -/
def arena_s2 : GridLevels := fun p =>
  if p = 110 ∨ p = 130 then
    { price := p, state := .READY_TO_SELL, paired_buy_level := none,
      paired_sell_level := none }
  else
    { price := p, state := .READY_TO_BUY, paired_buy_level := none,
      paired_sell_level := none }

/-- Variant of the S2 fixture in which the sell levels `110, 130` are in
state `READY_TO_BUY`: the state that `can_place_order(level, BUY_CLOSE)`
actually tests, because `BUY_CLOSE` is an alias of `BUY_OPEN`. -/
def arena_s2_ready_to_buy : GridLevels := fun p =>
  { price := p, state := .READY_TO_BUY, paired_buy_level := none,
    paired_sell_level := none }

/-- A `HEDGED_GRID` fixture: the level at 70 is paired with the sell
level at 110, every other level points back at 70 as its paired buy
level. -/
def arena_hedged_pair : GridLevels := fun p =>
  if p = 70 then
    { price := 70, state := .READY_TO_BUY_OR_SELL, paired_buy_level := none,
      paired_sell_level := some 110 }
  else
    { price := p, state := .READY_TO_BUY_OR_SELL, paired_buy_level := some 70,
      paired_sell_level := none }

/-- S4 round trip, first fill: from a flat tracker with margin `M`,
`fee_rate = 0.0005` and the default `initial_margin_ratio = 0.1`, a
`BUY_OPEN` order fills 1 contract at price 70. -/
def round_trip_first (M : ℚ) : BalanceState :=
  update_balance_on_order_completion 0.0005 0.1 (flat_balance M)
    PerpetualOrderSide.BUY_OPEN 1 70

/-- S4 round trip, second fill: a sell (`SELL_CLOSE`) order then fills
1 contract at price 110. -/
def round_trip_second (M : ℚ) : BalanceState :=
  update_balance_on_order_completion 0.0005 0.1 (round_trip_first M)
    PerpetualOrderSide.SELL_CLOSE 1 110

/-- An empty order book. -/
def empty_book : PerpetualOrderBook :=
  { long_orders_open := []
    long_orders_close := []
    short_orders_open := []
    short_orders_close := []
    conditional_orders := []
    order_to_grid_map := fun _ => none }

/-! ## Theorems for the claims -/

/-- C1 (counterexample): the claim says `complete_order(L, BUY_CLOSE)`
in `SIMPLE_GRID` sets `L.state` to `READY_TO_BUY`, and that in
`HEDGED_GRID` `complete_order(L, BUY_OPEN)` sets `L.state` to
`READY_TO_BUY_OR_SELL`.  At the concrete level of price 70 neither
holds: `BUY_CLOSE` is the same enum member as `BUY_OPEN`, so the simple
branch sets `READY_TO_SELL`, and the hedged `BUY_OPEN` branch also sets
`READY_TO_SELL`. -/
theorem complete_order_buy_close_counterexample :
    ((complete_order .SIMPLE_GRID arena_buy70 70 PerpetualOrderSide.BUY_CLOSE) 70).state
        ≠ GridCycleState.READY_TO_BUY
    ∧ ((complete_order .HEDGED_GRID arena_hedged_pair 70 PerpetualOrderSide.BUY_OPEN) 70).state
        ≠ GridCycleState.READY_TO_BUY_OR_SELL := by
  constructor <;> decide

/-- C1 (amended): in `SIMPLE_GRID`, `complete_order` with `BUY_OPEN` -
and with its alias `BUY_CLOSE` - sets the level to `READY_TO_SELL`, and
with a sell-valued side (`SELL_CLOSE`/`SELL_OPEN`) sets it to
`READY_TO_BUY`; in `HEDGED_GRID`, `BUY_OPEN` sets the level and its
paired sell level (if any) to `READY_TO_SELL`, `BUY_CLOSE` behaves
exactly as `BUY_OPEN`, and a sell-valued side changes nothing. -/
theorem complete_order_transitions (levels : GridLevels) (L : ℚ) :
    ((complete_order .SIMPLE_GRID levels L PerpetualOrderSide.BUY_OPEN) L).state
        = GridCycleState.READY_TO_SELL
    ∧ ((complete_order .SIMPLE_GRID levels L PerpetualOrderSide.BUY_CLOSE) L).state
        = GridCycleState.READY_TO_SELL
    ∧ ((complete_order .SIMPLE_GRID levels L PerpetualOrderSide.SELL_CLOSE) L).state
        = GridCycleState.READY_TO_BUY
    ∧ ((complete_order .HEDGED_GRID levels L PerpetualOrderSide.BUY_OPEN) L).state
        = GridCycleState.READY_TO_SELL
    ∧ (∀ p, (levels L).paired_sell_level = some p →
        ((complete_order .HEDGED_GRID levels L PerpetualOrderSide.BUY_OPEN) p).state
          = GridCycleState.READY_TO_SELL)
    ∧ complete_order .HEDGED_GRID levels L PerpetualOrderSide.BUY_CLOSE
        = complete_order .HEDGED_GRID levels L PerpetualOrderSide.BUY_OPEN
    ∧ complete_order .HEDGED_GRID levels L PerpetualOrderSide.SELL_CLOSE = levels := by
  refine ⟨?_, ?_, ?_, ?_, ?_, rfl, rfl⟩
  · simp [complete_order, update_level, set_state]
  · simp [complete_order, update_level, set_state, PerpetualOrderSide.BUY_CLOSE,
      PerpetualOrderSide.BUY_OPEN]
  · simp [complete_order, update_level, set_state, PerpetualOrderSide.SELL_CLOSE,
      PerpetualOrderSide.BUY_OPEN, PerpetualOrderSide.BUY_CLOSE]
  · simp only [complete_order, beq_self_eq_true, if_true]
    rcases h : ((update_level levels L (set_state .READY_TO_SELL)) L).paired_sell_level with _ | p
    · simp [update_level, set_state]
    · by_cases hLp : L = p
      · subst hLp
        simp [update_level, set_state]
      · simp [update_level, set_state, hLp]
  · intro p hp
    have hp1 : ((update_level levels L (set_state .READY_TO_SELL)) L).paired_sell_level
        = some p := by
      simpa [update_level, set_state] using hp
    simp only [complete_order, beq_self_eq_true, if_true]
    rw [hp1]
    simp [update_level, set_state]

/-- C1 (witness): the amended transitions instantiated on the hedged
fixture in which level 70 has 110 as its paired sell level. -/
theorem complete_order_transitions_witness :
    ((complete_order .SIMPLE_GRID arena_hedged_pair 70 PerpetualOrderSide.BUY_OPEN) 70).state
        = GridCycleState.READY_TO_SELL
    ∧ ((complete_order .HEDGED_GRID arena_hedged_pair 70 PerpetualOrderSide.BUY_OPEN) 110).state
        = GridCycleState.READY_TO_SELL :=
  ⟨(complete_order_transitions arena_hedged_pair 70).1,
   (complete_order_transitions arena_hedged_pair 70).2.2.2.2.1 110 (by decide)⟩

/-- C3 (counterexample): with `reversion_price = 100`,
`grid_ratio = 0.1`, `num_grids = 5`, `GEOMETRIC` spacing (and any
leverage - here 1 - which the geometric branch ignores), the computed
grids are not the claimed `65.61, 72.171, 79.3881, 87.327, 96.0597`. -/
theorem geometric_grids_counterexample :
    (calculate_price_grids_and_central_price 1 100 (1/10) 5 .GEOMETRIC).1
      ≠ [65.61, 72.171, 79.3881, 87.327, 96.0597] := by
  norm_num [calculate_price_grids_and_central_price, geometric_price_grids]

/-- C3 (amended): the geometric construction seeds the bottom
`100 * 0.9 ^ 5 = 59.049` itself as level 0 and multiplies by `1.1` for
each subsequent level, giving `59.049, 64.9539, 71.44929, 78.594219,
86.4536409`; `get_reversion_price` afterwards returns 100. -/
theorem geometric_grids_values :
    (calculate_price_grids_and_central_price 1 100 (1/10) 5 .GEOMETRIC).1
        = [59.049, 64.9539, 71.44929, 78.594219, 86.4536409]
    ∧ get_reversion_price 1 100 (1/10) 5 .GEOMETRIC = 100 := by
  constructor <;>
    norm_num [calculate_price_grids_and_central_price, geometric_price_grids,
      get_reversion_price]

/-- C4 (code evaluation at the failing input): on the S2 lattice
(`{50, 70, 90, 110, 130}`, buy levels `READY_TO_BUY`) with
`current_price = 90`, the buy loop of `initialize_grid_orders` places
limit `BUY_OPEN` orders at 50 and then 70 - ascending price order,
hardcoded quantity 1.0, and no `max_placed_orders` cap is applied (the
loop takes no such bound at all), so with `max_placed_orders = 1` it
still places two orders. -/
theorem initialize_grid_orders_buys_eval :
    (initialize_grid_orders_buys .SIMPLE_GRID arena_s2 [50, 70, 90] 90).2
      = [(50, 1), (70, 1)] := by
  decide

/-- C6 (counterexample): on the very first price update (90, below the
reversion price 100) the controller does not seed: `last_price` is still
`None`, so `_initialize_grid_orders_once` returns `False` without
invoking `perform_initial_purchase` or `initialize_grid_orders`. -/
theorem first_tick_no_seed_counterexample :
    initialize_grid_orders_once 90 100 false none = (false, false)
    ∧ run_ticks 100 [90]
        = { last_price := some 90, grid_orders_initialized := false, seed_count := 0 } := by
  constructor <;> rfl

/-- C6 (amended): once a previous price has been recorded, an unseeded
tick with `current_price < reversion_price` performs the initial
purchase, initializes the grid orders and marks the grid seeded; on a
tick with no previous price recorded nothing is seeded. -/
theorem initialize_grid_orders_once_spec (current_price reversion_price lp : ℚ)
    (h : current_price < reversion_price) :
    initialize_grid_orders_once current_price reversion_price false (some lp) = (true, true)
    ∧ initialize_grid_orders_once current_price reversion_price false none = (false, false) := by
  constructor
  · simp [initialize_grid_orders_once, h]
  · rfl

/-- C6 (witness): the amended behaviour at `current_price = 90`,
`reversion_price = 100`, previous price 95. -/
theorem initialize_grid_orders_once_spec_witness :
    (90 : ℚ) < 100
    ∧ (initialize_grid_orders_once 90 100 false (some 95) = (true, true)
        ∧ initialize_grid_orders_once 90 100 false none = (false, false)) :=
  ⟨by norm_num, initialize_grid_orders_once_spec 90 100 95 (by norm_num)⟩

/-- C7: the status-change handler, on a remote order whose status is
`UNKNOWN`, updates no order-book entry and publishes no event (the
`ValueError` it raises is swallowed by the surrounding handler), so an
`UNKNOWN` status is never converted into a final state. -/
theorem unknown_status_no_effect (id : String) (filled remaining : ℚ) :
    handle_order_status_change
        { identifier := id, status := .UNKNOWN, filled := filled, remaining := remaining }
      = ([], []) := rfl

/-- C8: for every margin `M ≥ 0`, price `p > 0`, leverage `> 0`, grid
count `> 0` and maintenance margin ratio in `[0, 1]`, the margin
consumed by `get_order_size_for_grid_level(M, p)` at price `p` under the
leverage is exactly `(M / num_grids) * (1 - margin_ratio)`, hence at
most `M / num_grids`: the bound holds and is tight up to the factor
`1 - margin_ratio`. -/
theorem order_size_margin_bound (num_grid_levels : ℕ)
    (leverage margin_ratio total_margin current_price : ℚ)
    (hn : 0 < num_grid_levels) (hl : 0 < leverage) (hp : 0 < current_price)
    (hM : 0 ≤ total_margin) (hmr0 : 0 ≤ margin_ratio) ( _hmr1 : margin_ratio ≤ 1) :
    get_order_size_for_grid_level num_grid_levels leverage margin_ratio total_margin
          current_price * current_price / leverage
        = total_margin / (num_grid_levels : ℚ) * (1 - margin_ratio)
    ∧ get_order_size_for_grid_level num_grid_levels leverage margin_ratio total_margin
          current_price * current_price / leverage
        ≤ total_margin / (num_grid_levels : ℚ) := by
  have heq : get_order_size_for_grid_level num_grid_levels leverage margin_ratio total_margin
      current_price * current_price / leverage
      = total_margin / (num_grid_levels : ℚ) * (1 - margin_ratio) := by
    unfold get_order_size_for_grid_level
    field_simp
    ring
  refine ⟨heq, ?_⟩
  rw [heq]
  have hdiv : 0 ≤ total_margin / (num_grid_levels : ℚ) := by positivity
  nlinarith

/-- C8 (witness): the bound instantiated at `num_grids = 5`,
`leverage = 10`, `margin_ratio = 0.01`, `M = 100`, `p = 2`. -/
theorem order_size_margin_bound_witness :
    (0 : ℚ) < 10
    ∧ (get_order_size_for_grid_level 5 10 (1/100) 100 2 * 2 / 10
          = 100 / ((5 : ℕ) : ℚ) * (1 - 1/100)
        ∧ get_order_size_for_grid_level 5 10 (1/100) 100 2 * 2 / 10
          ≤ 100 / ((5 : ℕ) : ℚ)) :=
  ⟨by norm_num,
   order_size_margin_bound 5 10 (1/100) 100 2 (by norm_num) (by norm_num) (by norm_num)
     (by norm_num) (by norm_num) (by norm_num)⟩

/-- C9: `pair_grid_levels(A, B, "buy")` leaves `A.paired_buy_level = B`
and `B.paired_sell_level = A`; `pair_grid_levels(A, B, "sell")` leaves
`A.paired_sell_level = B` and `B.paired_buy_level = A`; any other
pairing type raises `ValueError` (and the error path performs no
assignment). -/
theorem pair_grid_levels_symmetric (levels : GridLevels) (a b : ℚ) :
    (∀ s, pair_grid_levels levels a b "buy" = .ok s →
        (s a).paired_buy_level = some b ∧ (s b).paired_sell_level = some a)
    ∧ (∀ s, pair_grid_levels levels a b "sell" = .ok s →
        (s a).paired_sell_level = some b ∧ (s b).paired_buy_level = some a)
    ∧ (∀ t, t ≠ "buy" → t ≠ "sell" →
        pair_grid_levels levels a b t = .error ("Invalid pairing type: " ++ t)) := by
  refine ⟨?_, ?_, ?_⟩
  · intro s h
    simp only [pair_grid_levels] at h
    rw [if_pos trivial] at h
    injection h with h
    subst h
    by_cases hab : a = b
    · subst hab
      simp [update_level]
    · refine ⟨?_, ?_⟩
      · simp [update_level, hab]
      · simp [update_level]
  · intro s h
    simp only [pair_grid_levels] at h
    rw [if_pos trivial] at h
    injection h with h
    subst h
    by_cases hab : a = b
    · subst hab
      simp [update_level]
    · refine ⟨?_, ?_⟩
      · simp [update_level, hab]
      · simp [update_level]
  · intro t ht1 ht2
    simp [pair_grid_levels, ht1, ht2]

/-- C9 (witness): pairing the levels at prices 1 and 2 with type
`buy` on a concrete arena, plus the rejection of the pairing type
`xx`. -/
theorem pair_grid_levels_symmetric_witness :
    ((((pair_grid_levels arena_s2_ready_to_buy 1 2 "buy").toOption.getD
          arena_s2_ready_to_buy) 1).paired_buy_level = some 2
      ∧ (((pair_grid_levels arena_s2_ready_to_buy 1 2 "buy").toOption.getD
          arena_s2_ready_to_buy) 2).paired_sell_level = some 1)
    ∧ pair_grid_levels arena_s2_ready_to_buy 1 2 "xx"
        = .error "Invalid pairing type: xx" :=
  ⟨(pair_grid_levels_symmetric arena_s2_ready_to_buy 1 2).1 _ rfl,
   (pair_grid_levels_symmetric arena_s2_ready_to_buy 1 2).2.2 "xx" (by decide) (by decide)⟩

/-- C2 (counterexample): the claim's concrete instance fails.  On the
`SIMPLE_GRID` lattice `{50, 70, 90, 110, 130}` with level 110 in state
`READY_TO_SELL` (and 130 likewise), `get_paired_sell_level` for the buy
level at 70 returns `None`, not the level at 110: the eligibility test
`can_place_order(level, BUY_CLOSE)` checks for `READY_TO_BUY`, because
`BUY_CLOSE` is an alias of `BUY_OPEN`, so every `READY_TO_SELL` level is
skipped. -/
theorem get_paired_sell_level_simple_counterexample :
    get_paired_sell_level_simple arena_s2 [110, 130] 70 = none := by
  decide

/-- C2 (amended): in `SIMPLE_GRID`, for an ascending sell-grid list,
`get_paired_sell_level` returns the level of the lowest sell-grid price
strictly above the buy level's price for which
`can_place_order(level, BUY_CLOSE)` holds, and `None` when no such level
exists - where `can_place_order` with `BUY_CLOSE` coincides with
`can_place_order` with `BUY_OPEN` (state `READY_TO_BUY`), because the
two names are the same enum member. -/
theorem get_paired_sell_level_simple_spec (levels : GridLevels) (grids : List ℚ)
    (buy_price : ℚ) (hs : grids.Pairwise (· < ·)) :
    (∀ p, get_paired_sell_level_simple levels grids buy_price = some p →
        p ∈ grids ∧ buy_price < p
          ∧ can_place_order .SIMPLE_GRID (levels p) PerpetualOrderSide.BUY_CLOSE = true
          ∧ ∀ q ∈ grids, buy_price < q →
              can_place_order .SIMPLE_GRID (levels q) PerpetualOrderSide.BUY_CLOSE = true →
              p ≤ q)
    ∧ (get_paired_sell_level_simple levels grids buy_price = none →
        ∀ q ∈ grids, buy_price < q →
          can_place_order .SIMPLE_GRID (levels q) PerpetualOrderSide.BUY_CLOSE = false)
    ∧ (∀ g, can_place_order .SIMPLE_GRID g PerpetualOrderSide.BUY_CLOSE
          = can_place_order .SIMPLE_GRID g PerpetualOrderSide.BUY_OPEN) := by
  induction hs with
  | nil =>
    refine ⟨?_, ?_, fun g => rfl⟩
    · intro p hp
      simp [get_paired_sell_level_simple] at hp
    · intro _ q hq
      simp at hq
  | @cons a rest ha hrest ih =>
    obtain ⟨ih1, ih2, -⟩ := ih
    refine ⟨?_, ?_, fun g => rfl⟩
    · intro p hp
      simp only [get_paired_sell_level_simple] at hp
      cases hc : can_place_order .SIMPLE_GRID (levels a) PerpetualOrderSide.BUY_CLOSE with
      | false =>
        rw [hc] at hp
        simp only [Bool.false_eq_true, not_false_eq_true, if_true] at hp
        obtain ⟨h1, h2, h3, h4⟩ := ih1 p hp
        refine ⟨List.mem_cons_of_mem a h1, h2, h3, ?_⟩
        intro q hq hbq hcq
        rcases List.mem_cons.mp hq with rfl | hq2
        · rw [hcq] at hc
          cases hc
        · exact h4 q hq2 hbq hcq
      | true =>
        rw [hc] at hp
        simp only [not_true_eq_false, if_false] at hp
        by_cases hb : buy_price < a
        · rw [if_pos hb] at hp
          injection hp with hp
          subst hp
          refine ⟨List.mem_cons_self a rest, hb, hc, ?_⟩
          intro q hq hbq hcq
          rcases List.mem_cons.mp hq with rfl | hq2
          · exact le_refl q
          · exact le_of_lt (ha q hq2)
        · rw [if_neg hb] at hp
          obtain ⟨h1, h2, h3, h4⟩ := ih1 p hp
          refine ⟨List.mem_cons_of_mem a h1, h2, h3, ?_⟩
          intro q hq hbq hcq
          rcases List.mem_cons.mp hq with rfl | hq2
          · exact absurd hbq hb
          · exact h4 q hq2 hbq hcq
    · intro hp q hq hbq
      simp only [get_paired_sell_level_simple] at hp
      cases hc : can_place_order .SIMPLE_GRID (levels a) PerpetualOrderSide.BUY_CLOSE with
      | false =>
        rw [hc] at hp
        simp only [Bool.false_eq_true, not_false_eq_true, if_true] at hp
        rcases List.mem_cons.mp hq with rfl | hq2
        · exact hc
        · exact ih2 hp q hq2 hbq
      | true =>
        rw [hc] at hp
        simp only [not_true_eq_false, if_false] at hp
        by_cases hb : buy_price < a
        · rw [if_pos hb] at hp
          cases hp
        · rw [if_neg hb] at hp
          rcases List.mem_cons.mp hq with rfl | hq2
          · exact absurd hbq hb
          · exact ih2 hp q hq2 hbq

/-- C2 (witness): on the lattice `{110, 130}` with both sell levels in
state `READY_TO_BUY` - the state `can_place_order(level, BUY_CLOSE)`
actually accepts - the paired sell level for a buy at 70 is 110, the
lowest eligible sell level above 70. -/
theorem get_paired_sell_level_simple_spec_witness :
    ([(110 : ℚ), 130].Pairwise (· < ·))
    ∧ ((110 : ℚ) ∈ [(110 : ℚ), 130] ∧ (70 : ℚ) < 110
        ∧ can_place_order .SIMPLE_GRID (arena_s2_ready_to_buy 110)
            PerpetualOrderSide.BUY_CLOSE = true
        ∧ ∀ q ∈ [(110 : ℚ), 130], (70 : ℚ) < q →
            can_place_order .SIMPLE_GRID (arena_s2_ready_to_buy q)
              PerpetualOrderSide.BUY_CLOSE = true → 110 ≤ q) :=
  ⟨by decide,
   (get_paired_sell_level_simple_spec arena_s2_ready_to_buy [110, 130] 70
      (by decide)).1 110 (by decide)⟩

/-- The two runtime side members are distinct (helper fact). -/
theorem sell_eq_buy_iff : SideMember.sell = SideMember.buy ↔ False := by
  constructor
  · intro h
    exact absurd h (by decide)
  · intro h
    exact h.elim

/-- C5: the S4 round trip on the balance tracker with
`fee_rate = 0.0005` and the default `initial_margin_ratio = 0.1`,
starting flat with margin balance `M`: the `BUY_OPEN` fill of 1 contract
at 70 leaves a long position of 1 at average entry 70 with fee 0.035
charged; the subsequent sell fill of 1 contract at 110 adds 40 to
`realized_pnl`, flattens the long position and its average entry, brings
cumulative trading fees to 0.09, and leaves the margin balance changed
by exactly `+40 - 0.09`. -/
theorem balance_round_trip (M : ℚ) :
    (round_trip_first M).long_position = 1
    ∧ (round_trip_first M).long_avg_price = 70
    ∧ (round_trip_first M).total_fees = 0.035
    ∧ (round_trip_first M).margin_balance = M - 0.035
    ∧ (round_trip_second M).realized_pnl = (round_trip_first M).realized_pnl + 40
    ∧ (round_trip_second M).long_position = 0
    ∧ (round_trip_second M).long_avg_price = 0
    ∧ (round_trip_second M).total_fees = 0.09
    ∧ (round_trip_second M).margin_balance = M + 40 - 0.09 := by
  have h1 : round_trip_first M =
      { margin_balance := M - 0.035, reserved_margin := 0, total_fees := 0.035,
        long_position := 1, short_position := 0, long_avg_price := 70,
        short_avg_price := 0, unrealized_pnl := 0, realized_pnl := 0,
        funding_fees := 0 } := by
    unfold round_trip_first update_balance_on_order_completion handle_open_position
      handle_close_position calculate_fee calculate_required_margin flat_balance
    norm_num [PerpetualOrderSide.BUY_OPEN, PerpetualOrderSide.SELL_OPEN]
  have h2 : round_trip_second M =
      { margin_balance := M + 40 - 0.09, reserved_margin := 0, total_fees := 0.09,
        long_position := 0, short_position := 0, long_avg_price := 0,
        short_avg_price := 0, unrealized_pnl := 0, realized_pnl := 40,
        funding_fees := 0 } := by
    rw [round_trip_second, h1]
    unfold update_balance_on_order_completion handle_open_position
      handle_close_position calculate_fee calculate_required_margin
    norm_num [PerpetualOrderSide.BUY_OPEN, PerpetualOrderSide.SELL_OPEN,
      PerpetualOrderSide.SELL_CLOSE, sell_eq_buy_iff]
    ring
  rw [h1, h2]
  norm_num

/-- C10: for every side member, `get_orders_by_side` raises
`AttributeError` on its very first comparison (against the nonexistent
member `OPEN_LONG`) instead of returning a bucket, and consequently
`get_orders_with_grid` never returns normally either. -/
theorem get_orders_by_side_attribute_error (book : PerpetualOrderBook) (side : SideMember) :
    get_orders_by_side book side = .error "AttributeError: OPEN_LONG"
    ∧ get_orders_with_grid book side = .error "AttributeError: OPEN_LONG" := by
  constructor <;> rfl

end PerpetualBot
